import Mathlib

/-!
Shallow embedding of the color-harmony core of the AI Wardrobe Stylist
repository (src/utils/colorExtraction.js, src/utils/colorMatching.js, and
the wardrobe-item records built in src/components/UploadWardrobe.jsx),
together with theorems checking the specification's claims about it.

Conventions:
- HSL components are the integers produced by `rgbToHsl` (Math.round), so
  they are modelled as `ℤ`.
- Scores are JavaScript numbers holding small integers and halves, modelled
  as `ℚ` where fractional values occur and `ℤ` for the pairwise score.
- A JavaScript field read that may yield `undefined` (such as `item.hex` on
  an upload-path record that only has `dominantColorHex`) is modelled with
  `Option String`; interpolating `undefined` into a template literal yields
  the string "undefined", modelled by `jsShow`.
- `Math.random()`-driven choices in the candidate generator are modelled by
  an explicit list of `Draw` records, one per loop attempt: indices are
  reduced modulo the bucket length (every index in range is reachable, and
  every modelled draw corresponds to reachable random values), and the
  probability-0.7 / 0.5 inclusion tests become explicit booleans.
-/

attribute [local semireducible] Rat.mul Rat.add Rat.sub Rat.inv

namespace ColorCloset

/-- HSL colour triple as produced by `rgbToHsl` in colorExtraction.js:
integer hue (degrees), saturation and lightness (percent). -/
structure HSL where
  h : ℤ
  s : ℤ
  l : ℤ
deriving DecidableEq, Repr

/-- `hueDifference` (colorMatching.js): minimal angular difference between
two hues on the colour wheel, `min(|h1-h2|, 360-|h1-h2|)`. -/
def hueDifference (h1 h2 : ℤ) : ℤ :=
  min |h1 - h2| (360 - |h1 - h2|)

/-- `isNeutralColor` (colorExtraction.js): low saturation, very light or
very dark, or the beige/tan band with moderate saturation. -/
def isNeutralColor (c : HSL) : Bool :=
  if c.s < 12 then true
  else if c.l > 85 || c.l < 15 then true
  else if 30 ≤ c.h && c.h ≤ 60 && c.s < 40 then true
  else false

/-- `calculateColorHarmony` (colorMatching.js): pairwise harmony score,
accumulated exactly as in the source: complementary (+2) else analogous
(+1), an independent high-contrast bonus (+1), and a neutral-pairing bonus
(+1) only in formal context. -/
def calculateColorHarmony (hsl1 hsl2 : HSL) (isFormalContext : Bool) : ℤ :=
  let hueDistance := hueDifference hsl1.h hsl2.h
  let isNeutral1 := isNeutralColor hsl1
  let isNeutral2 := isNeutralColor hsl2
  let score0 : ℤ := 0
  let score1 : ℤ :=
    if 150 ≤ hueDistance ∧ hueDistance ≤ 210 then score0 + 2
    else if hueDistance ≤ 30 then score0 + 1
    else score0
  let score2 : ℤ :=
    if (hsl1.l < 30 ∧ 70 < hsl2.l) ∨ (hsl2.l < 30 ∧ 70 < hsl1.l) then score1 + 1
    else score1
  let score3 : ℤ :=
    if (isNeutral1 || isNeutral2) && isFormalContext then score2 + 1
    else score2
  score3

/-- C9: `isNeutral` returns true iff saturation < 12, or lightness > 85, or
lightness < 15, or (hue in [30,60] and saturation < 40); in particular true
for saturation 5 regardless of hue and lightness, true for lightness 90
regardless of saturation, true for hue 45 with saturation 20, and false for
hue 0, saturation 80, lightness 50. -/
theorem C9_isNeutral_characterization :
    (∀ c : HSL, 0 ≤ c.h → c.h < 360 → 0 ≤ c.s → c.s ≤ 100 → 0 ≤ c.l → c.l ≤ 100 →
      (isNeutralColor c = true ↔
        (c.s < 12 ∨ c.l > 85 ∨ c.l < 15 ∨ (30 ≤ c.h ∧ c.h ≤ 60 ∧ c.s < 40)))) ∧
    (∀ h l : ℤ, isNeutralColor ⟨h, 5, l⟩ = true) ∧
    (∀ h s : ℤ, isNeutralColor ⟨h, s, 90⟩ = true) ∧
    (∀ l : ℤ, isNeutralColor ⟨45, 20, l⟩ = true) ∧
    isNeutralColor ⟨0, 80, 50⟩ = false := by
  refine ⟨?_, ?_, ?_, ?_, by decide⟩
  · intro c _ _ _ _ _ _
    simp only [isNeutralColor, Bool.and_eq_true, decide_eq_true_eq]
    split_ifs with h1 h2 h3 <;>
      simp_all <;> omega
  · intro h l
    simp [isNeutralColor]
  · intro h s
    by_cases hs : s < 12 <;> simp [isNeutralColor, hs]
  · intro l
    by_cases hl : l > 85 <;> by_cases hl2 : l < 15 <;> simp [isNeutralColor, hl, hl2]

/-- Witness for C9 at a concrete colour. -/
theorem C9_witness : isNeutralColor ⟨45, 20, 50⟩ = true :=
  (C9_isNeutral_characterization.1 ⟨45, 20, 50⟩ (by decide) (by decide) (by decide)
    (by decide) (by decide) (by decide)).mpr (by decide)

/-- C1: the pairwise harmony score is the sum of a complementary/analogous
term, a contrast term and a formal-neutral term; it lies in [0,4]; hues 0
and 180 with lightnesses 20 and 80 non-formal score 3; identical hues with
both lightnesses 50 and isFormal false score 1. -/
theorem C1_harmonyScore_formula :
    (∀ (a b : HSL) (isFormal : Bool),
      0 ≤ a.h → a.h < 360 → 0 ≤ b.h → b.h < 360 →
      0 ≤ a.s → a.s ≤ 100 → 0 ≤ a.l → a.l ≤ 100 →
      0 ≤ b.s → b.s ≤ 100 → 0 ≤ b.l → b.l ≤ 100 →
      calculateColorHarmony a b isFormal =
        (if 150 ≤ hueDifference a.h b.h ∧ hueDifference a.h b.h ≤ 210 then 2
          else if hueDifference a.h b.h ≤ 30 then 1 else 0) +
        (if (a.l < 30 ∧ 70 < b.l) ∨ (b.l < 30 ∧ 70 < a.l) then 1 else 0) +
        (if (isNeutralColor a = true ∨ isNeutralColor b = true) ∧ isFormal = true then 1
          else 0) ∧
      0 ≤ calculateColorHarmony a b isFormal ∧ calculateColorHarmony a b isFormal ≤ 4) ∧
    (∀ s1 s2 : ℤ, calculateColorHarmony ⟨0, s1, 20⟩ ⟨180, s2, 80⟩ false = 3) ∧
    (∀ h s1 s2 : ℤ, calculateColorHarmony ⟨h, s1, 50⟩ ⟨h, s2, 50⟩ false = 1) := by
  refine ⟨?_, ?_, ?_⟩
  · intro a b isFormal _ _ _ _ _ _ _ _ _ _ _ _
    refine ⟨?_, ?_, ?_⟩ <;>
      · simp only [calculateColorHarmony, Bool.and_eq_true, Bool.or_eq_true]
        split_ifs <;> simp_all <;> omega
  · intro s1 s2
    simp [calculateColorHarmony, hueDifference]
  · intro h s1 s2
    simp [calculateColorHarmony, hueDifference]

/-- Witness for C1 at concrete colours. -/
theorem C1_witness : (0 : ℤ) ≤ calculateColorHarmony ⟨0, 80, 50⟩ ⟨120, 40, 60⟩ true :=
  ((C1_harmonyScore_formula.1 ⟨0, 80, 50⟩ ⟨120, 40, 60⟩ true (by decide) (by decide)
    (by decide) (by decide) (by decide) (by decide) (by decide) (by decide) (by decide)
    (by decide) (by decide) (by decide)).2).1

/-- Wardrobe item record. The upload path (UploadWardrobe.jsx) stores the
extracted hex string in `dominantColorHex` and never sets a field named
`hex`; colorMatching.js nevertheless reads `item.hex`, so that read is
modelled as an `Option String` that is `none` on upload-path records. -/
structure Item where
  id : String
  category : String
  hsl : HSL
  hex : Option String := none
  dominantColorHex : Option String := none
deriving DecidableEq

/-- Interpolating a possibly-undefined JavaScript value into a template
literal: `undefined` prints as the string "undefined". -/
def jsShow : Option String → String
  | some s => s
  | none => "undefined"

/-- JavaScript `String.prototype.toLowerCase` on the ASCII category names. -/
def jsToLower (s : String) : String :=
  String.mk (s.data.map Char.toLower)

/-- Character-level worker for JavaScript `split(': ')`: scan the text,
cutting at each non-overlapping leftmost occurrence of the two-character
separator `": "`. -/
def jsSplitColonSpaceAux : List Char → List Char → List (List Char)
  | [], acc => [acc.reverse]
  | [c], acc => [(c :: acc).reverse]
  | c :: c2 :: cs, acc =>
    if c = ':' ∧ c2 = ' ' then acc.reverse :: jsSplitColonSpaceAux cs []
    else jsSplitColonSpaceAux (c2 :: cs) (c :: acc)

/-- JavaScript `s.split(': ')`. -/
def splitColonSpace (s : String) : List String :=
  (jsSplitColonSpaceAux s.data []).map String.mk

/-- JavaScript `Math.round` on the (rational-valued) mean saturation. -/
def jsRound (q : ℚ) : ℤ := ⌊q + 1/2⌋

/-- The ordered pairs (i, j) with i < j visited by the nested loops of
`scoreOutfitCombination`, in loop order. -/
def pairsOf {α : Type} : List α → List (α × α)
  | [] => []
  | x :: xs => (xs.map fun y => (x, y)) ++ pairsOf xs

/-- The detail strings pushed for one pair inside the nested loops of
`scoreOutfitCombination`: only when the pair's harmony score is positive,
a complementary/analogous line, then a neutral-pairing line when either
member is neutral. -/
def pairDetails (isFormal : Bool) (p : Item × Item) : List String :=
  let harmonyScore := calculateColorHarmony p.1.hsl p.2.hsl isFormal
  if 0 < harmonyScore then
    let hueDistance := hueDifference p.1.hsl.h p.2.hsl.h
    (if 150 ≤ hueDistance ∧ hueDistance ≤ 210 then
        [p.1.category ++ " + " ++ p.2.category ++ ": complementary colors"]
      else if hueDistance ≤ 30 then
        [p.1.category ++ " + " ++ p.2.category ++ ": analogous harmony"]
      else []) ++
    (if isNeutralColor p.1.hsl || isNeutralColor p.2.hsl then
        [p.1.category ++ " + " ++ p.2.category ++ ": neutral pairing"]
      else [])
  else []

/-- Accumulated pairwise harmony total of `scoreOutfitCombination`. -/
def pairwiseHarmonyTotal (items : List Item) (isFormal : Bool) : ℤ :=
  ((pairsOf items).map fun p => calculateColorHarmony p.1.hsl p.2.hsl isFormal).sum

/-- The `harmonyDetails` list accumulated by `scoreOutfitCombination`. -/
def harmonyDetailList (items : List Item) (isFormal : Bool) : List String :=
  (pairsOf items).flatMap (pairDetails isFormal)

/-- The `neutralCount` statistic of `scoreOutfitCombination`. -/
def neutralItemCount (items : List Item) : ℕ :=
  (items.filter fun item => isNeutralColor item.hsl).length

/-- The `avgSaturation` statistic of `scoreOutfitCombination` after the
division by `items.length`. -/
def meanSaturation (items : List Item) : ℚ :=
  ((items.map fun item => (item.hsl.s : ℚ)).sum) / items.length

/-- `generateOutfitExplanation` (colorMatching.js), including the
`item.hex` read that is `undefined` on upload-path records. -/
def generateOutfitExplanation (items : List Item) (harmonyDetails : List String)
    (isFormal : Bool) (neutralCount : ℕ) (avgSaturation : ℚ) : String :=
  let itemNames := items.map fun item => jsShow item.hex ++ " " ++ jsToLower item.category
  if harmonyDetails.length = 0 ∧ neutralCount = 0 then
    String.intercalate " + " itemNames ++ " — experimental color combination for " ++
      (if isFormal then "formal" else "casual") ++ " wear"
  else
    let e1 : String :=
      if 0 < neutralCount then
        if neutralCount = items.length then "All neutral palette"
        else toString neutralCount ++ " neutral item" ++
          (if 1 < neutralCount then "s" else "") ++ " provide balance"
      else ""
    let e2 : String :=
      if 0 < harmonyDetails.length then
        let primaryHarmony := harmonyDetails.getD 0 "undefined"
        (if e1 ≠ "" then e1 ++ "; " else e1) ++
          (splitColonSpace primaryHarmony).getD 1 "undefined"
      else e1
    let e3 : String :=
      if isFormal = true ∧ 0 < neutralCount then e2 ++ " — professional and sophisticated"
      else if isFormal = false ∧ avgSaturation > 50 then e2 ++ " — vibrant and expressive"
      else e2
    String.intercalate " + " itemNames ++ " — " ++ e3

/-- The details object exposed by `scoreOutfitCombination`. -/
structure ScoreDetails where
  harmonyDetails : List String
  neutralCount : ℕ
  avgSaturation : ℤ
deriving DecidableEq

/-- Result record of `scoreOutfitCombination`; the short-circuit return on
fewer than 2 items carries no `details` field, modelled with `none`. -/
structure ScoreResult where
  score : ℚ
  explanation : String
  details : Option ScoreDetails := none
deriving DecidableEq

/-- `scoreOutfitCombination` (colorMatching.js). -/
def scoreOutfitCombination (items : List Item) (isFormal : Bool) : ScoreResult :=
  if items.length < 2 then
    { score := 0, explanation := "Not enough items for scoring" }
  else
    let harmonyDetails := harmonyDetailList items isFormal
    let neutralCount := neutralItemCount items
    let avgSaturation := meanSaturation items
    let pairTotal : ℚ := (pairwiseHarmonyTotal items isFormal : ℚ)
    let totalScore : ℚ :=
      if isFormal then
        let withNeutrals := pairTotal + (neutralCount : ℚ) * (1/2)
        if avgSaturation > 55 then withNeutrals - 1 else withNeutrals
      else
        if avgSaturation > 40 then pairTotal + 1/2 else pairTotal
    { score := totalScore,
      explanation :=
        generateOutfitExplanation items harmonyDetails isFormal neutralCount avgSaturation,
      details := some { harmonyDetails := harmonyDetails, neutralCount := neutralCount,
                        avgSaturation := jsRound avgSaturation } }

/-- A red top as mid examples use: hue 0, saturation 50, lightness 20. -/
def itemRedTop : Item := { id := "t1", category := "Tops", hsl := ⟨0, 50, 20⟩ }

/-- A light item at hue 90: scores only through the contrast rule against
`itemRedTop`. -/
def itemLightBottom : Item := { id := "b1", category := "Bottoms", hsl := ⟨90, 50, 80⟩ }

/-- C8: with fewer than 2 items, `scoreOutfitCombination` returns exactly
the sentinel record: score 0, the literal explanation, and no details. -/
theorem C8_too_few_items (items : List Item) (isFormal : Bool)
    (h : items.length < 2) :
    scoreOutfitCombination items isFormal =
      { score := 0, explanation := "Not enough items for scoring", details := none } := by
  simp [scoreOutfitCombination, h]

/-- Witness for C8 on a one-item list. -/
theorem C8_witness :
    scoreOutfitCombination [itemRedTop] false =
      { score := 0, explanation := "Not enough items for scoring", details := none } :=
  C8_too_few_items [itemRedTop] false (by decide)

/-- C5: on 2 or more items the returned score is the pairwise total plus
exactly one style adjustment: formal adds 0.5 per neutral item and
subtracts 1 when mean saturation exceeds 55; casual adds 0.5 when mean
saturation exceeds 40. -/
theorem C5_style_adjustment (items : List Item) (isFormal : Bool)
    (h : 2 ≤ items.length) :
    (scoreOutfitCombination items isFormal).score =
      (pairwiseHarmonyTotal items isFormal : ℚ) +
        (if isFormal = true then
          (neutralItemCount items : ℚ) * (1/2) -
            (if meanSaturation items > 55 then 1 else 0)
        else
          (if meanSaturation items > 40 then 1/2 else 0)) := by
  have h2 : ¬ items.length < 2 := by omega
  cases isFormal <;>
    simp only [scoreOutfitCombination, h2, if_false] <;>
    split_ifs <;> simp <;> ring

/-- Witness for C5 on a concrete two-item outfit. -/
theorem C5_witness :
    (scoreOutfitCombination [itemRedTop, itemLightBottom] false).score =
      (pairwiseHarmonyTotal [itemRedTop, itemLightBottom] false : ℚ) +
        (if meanSaturation [itemRedTop, itemLightBottom] > 40 then 1/2 else 0) := by
  have := C5_style_adjustment [itemRedTop, itemLightBottom] false (by decide)
  simpa using this

/-- A pair placed anywhere in a list, in order, is visited by the nested
pair loops. -/
theorem mem_pairsOf_split {α : Type} (l1 l2 l3 : List α) (x y : α) :
    (x, y) ∈ pairsOf (l1 ++ x :: l2 ++ y :: l3) := by
  induction l1 with
  | nil =>
    simp only [List.nil_append, pairsOf, List.mem_append, List.mem_map]
    exact Or.inl ⟨y, by simp, rfl⟩
  | cons a l1 ih =>
    simp only [List.cons_append, pairsOf, List.mem_append]
    exact Or.inr ih

/-- C3 counterexample: a pair scoring only through the contrast rule has a
strictly positive harmony score yet records no detail string at all. -/
theorem C3_counterexample :
    calculateColorHarmony itemRedTop.hsl itemLightBottom.hsl false = 1 ∧
    (scoreOutfitCombination [itemRedTop, itemLightBottom] false).details =
      some { harmonyDetails := [], neutralCount := 0, avgSaturation := 50 } := by
  constructor
  · decide
  · decide

/-- C3 (amended): for a pair with positive harmony score, a complementary
detail is recorded when the hue distance is in [150,210], an analogous
detail when it is not but the distance is at most 30, and a neutral-pairing
detail whenever either member is neutral; a pair scoring only through the
contrast rule records no qualitative detail. -/
theorem C3_detail_recording (isFormal : Bool) (l1 l2 l3 : List Item) (x y : Item)
    (hpos : 0 < calculateColorHarmony x.hsl y.hsl isFormal) :
    ∃ dt, (scoreOutfitCombination (l1 ++ x :: l2 ++ y :: l3) isFormal).details = some dt ∧
      (150 ≤ hueDifference x.hsl.h y.hsl.h ∧ hueDifference x.hsl.h y.hsl.h ≤ 210 →
        (x.category ++ " + " ++ y.category ++ ": complementary colors")
          ∈ dt.harmonyDetails) ∧
      (¬ (150 ≤ hueDifference x.hsl.h y.hsl.h ∧ hueDifference x.hsl.h y.hsl.h ≤ 210) →
        hueDifference x.hsl.h y.hsl.h ≤ 30 →
        (x.category ++ " + " ++ y.category ++ ": analogous harmony")
          ∈ dt.harmonyDetails) ∧
      ((isNeutralColor x.hsl = true ∨ isNeutralColor y.hsl = true) →
        (x.category ++ " + " ++ y.category ++ ": neutral pairing")
          ∈ dt.harmonyDetails) := by
  have hlen : ¬ (l1 ++ x :: l2 ++ y :: l3).length < 2 := by
    simp only [List.length_append, List.length_cons]
    omega
  have hmem : (x, y) ∈ pairsOf (l1 ++ x :: l2 ++ y :: l3) := mem_pairsOf_split l1 l2 l3 x y
  have hsub : ∀ s, s ∈ pairDetails isFormal (x, y) →
      s ∈ harmonyDetailList (l1 ++ x :: l2 ++ y :: l3) isFormal := by
    intro s hs
    exact List.mem_flatMap.mpr ⟨(x, y), hmem, hs⟩
  refine ⟨⟨harmonyDetailList (l1 ++ x :: l2 ++ y :: l3) isFormal,
          neutralItemCount (l1 ++ x :: l2 ++ y :: l3),
          jsRound (meanSaturation (l1 ++ x :: l2 ++ y :: l3))⟩, ?_, ?_, ?_, ?_⟩
  · simp only [scoreOutfitCombination, hlen, if_false]
  · intro hcomp
    apply hsub
    simp only [pairDetails, if_pos hpos, List.mem_append]
    left
    simp [hcomp]
  · intro hncomp hana
    apply hsub
    simp only [pairDetails, if_pos hpos, List.mem_append]
    left
    simp [hncomp, hana]
  · intro hneu
    apply hsub
    simp only [pairDetails, if_pos hpos, List.mem_append]
    right
    have hb : (isNeutralColor x.hsl || isNeutralColor y.hsl) = true := by
      rcases hneu with h | h <;> simp [h]
    simp [hb]

/-- A top and a bottom at opposite hues: complementary pair. -/
def itemBlueTop : Item := { id := "t2", category := "Tops", hsl := ⟨0, 80, 50⟩ }

/-- Complementary partner of `itemBlueTop`. -/
def itemOrangeBottom : Item := { id := "b2", category := "Bottoms", hsl := ⟨180, 80, 50⟩ }

/-- Witness for C3 on a concrete complementary pair. -/
theorem C3_witness :
    ∃ dt, (scoreOutfitCombination ([] ++ itemBlueTop :: [] ++ itemOrangeBottom :: [])
        false).details = some dt ∧
      (150 ≤ hueDifference itemBlueTop.hsl.h itemOrangeBottom.hsl.h ∧
          hueDifference itemBlueTop.hsl.h itemOrangeBottom.hsl.h ≤ 210 →
        (itemBlueTop.category ++ " + " ++ itemOrangeBottom.category ++
          ": complementary colors") ∈ dt.harmonyDetails) ∧
      (¬ (150 ≤ hueDifference itemBlueTop.hsl.h itemOrangeBottom.hsl.h ∧
            hueDifference itemBlueTop.hsl.h itemOrangeBottom.hsl.h ≤ 210) →
        hueDifference itemBlueTop.hsl.h itemOrangeBottom.hsl.h ≤ 30 →
        (itemBlueTop.category ++ " + " ++ itemOrangeBottom.category ++
          ": analogous harmony") ∈ dt.harmonyDetails) ∧
      ((isNeutralColor itemBlueTop.hsl = true ∨
          isNeutralColor itemOrangeBottom.hsl = true) →
        (itemBlueTop.category ++ " + " ++ itemOrangeBottom.category ++
          ": neutral pairing") ∈ dt.harmonyDetails) :=
  C3_detail_recording false [] [] [] itemBlueTop itemOrangeBottom (by decide)

/-- A navy top as the upload path stores it: hex only under
`dominantColorHex`. -/
def uploadNavyTop : Item :=
  { id := "item-1-aaaaaaaaa", category := "Tops", hsl := ⟨220, 60, 30⟩,
    hex := none, dominantColorHex := some "#1e3a8a" }

/-- A beige bottom as the upload path stores it. -/
def uploadBeigeBottom : Item :=
  { id := "item-2-bbbbbbbbb", category := "Bottoms", hsl := ⟨40, 30, 70⟩,
    hex := none, dominantColorHex := some "#d4b896" }

/-- C10: on upload-path records (which carry `dominantColorHex` and no
`hex` field) the explanation renders each item as the string "undefined"
followed by its lowercased category, not as its hex colour identifier:
colorMatching.js reads `item.hex`, a field the upload path never sets. -/
theorem C10_hex_undefined :
    (scoreOutfitCombination [uploadNavyTop, uploadBeigeBottom] false).explanation =
      "undefined tops + undefined bottoms — 1 neutral item provide balance; complementary colors" ∧
    uploadNavyTop.hex = none ∧
    uploadNavyTop.dominantColorHex = some "#1e3a8a" ∧
    jsShow uploadNavyTop.hex = "undefined" := by
  refine ⟨?_, rfl, rfl, rfl⟩
  decide

/-- Categorized wardrobe view consumed by `generateOutfitSuggestions`. -/
structure Wardrobe where
  tops : List Item := []
  bottoms : List Item := []
  footwear : List Item := []
  accessories : List Item := []
deriving DecidableEq

/-- The random choices consumed by one attempt of the generation loop:
`Math.floor(Math.random() * len)` picks are modelled as arbitrary indices
reduced modulo the bucket length, and the `Math.random() > 0.3` /
`Math.random() > 0.5` inclusion tests as booleans. Every value in range is
reachable, and every modelled draw corresponds to reachable random
values. -/
structure Draw where
  topIdx : ℕ := 0
  botIdx : ℕ := 0
  footIdx : ℕ := 0
  accIdx : ℕ := 0
  incFoot : Bool := false
  incAcc : Bool := false
deriving DecidableEq

/-- `bucket[Math.floor(Math.random() * bucket.length)]` wrapped in the
`bucket.length > 0` guard: one uniformly drawn item, or nothing from an
empty bucket. -/
def pick : List Item → ℕ → List Item
  | [], _ => []
  | x :: xs, n => [(x :: xs).getD (n % (xs.length + 1)) x]

/-- The combination assembled by one attempt of the generation loop: a top
and a bottom when those buckets are nonempty, then optional footwear and
accessories. -/
def buildCombination (w : Wardrobe) (d : Draw) : List Item :=
  pick w.tops d.topIdx ++ pick w.bottoms d.botIdx ++
    (if d.incFoot then pick w.footwear d.footIdx else []) ++
    (if d.incAcc then pick w.accessories d.accIdx else [])

/-- Lexicographic comparison of character lists by code point, as
JavaScript's default `array.sort()` compares strings (code-unit order;
identical on the ASCII ids involved). -/
def charListLt : List Char → List Char → Bool
  | [], [] => false
  | [], _ :: _ => true
  | _ :: _, [] => false
  | a :: as, b :: bs =>
    if a.toNat < b.toNat then true
    else if b.toNat < a.toNat then false
    else charListLt as bs

/-- Weak version of the JavaScript string comparison. -/
def jsStrLe (a b : String) : Bool :=
  !(charListLt b.data a.data)

/-- Insertion step of JavaScript `array.sort()` on strings (lexicographic
code-unit order; the ids are ASCII). -/
def insertSortedString (x : String) : List String → List String
  | [] => [x]
  | y :: ys => if jsStrLe x y then x :: y :: ys else y :: insertSortedString x ys

/-- JavaScript `ids.sort()`. -/
def sortStrings (l : List String) : List String :=
  l.foldr insertSortedString []

/-- The dedup key of the generation loop:
`combination.map(item => item.id).sort().join('-')`. -/
def dedupKey (items : List Item) : String :=
  String.intercalate "-" (sortStrings (items.map Item.id))

/-- Accepted outfit suggestion. The JavaScript object also carries a fresh
`id` built from `Date.now()`/`Math.random()` and a `timestamp`; those are
environment-supplied opaque values no claim touches, so they are not
modelled. -/
structure OutfitCandidate where
  items : List Item
  score : ℚ
  explanation : String
  details : Option ScoreDetails
  style : String
deriving DecidableEq

/-- Wrapping of an accepted combination into a suggestion record. -/
def mkCandidate (isFormal : Bool) (combination : List Item) : OutfitCandidate :=
  let scoring := scoreOutfitCombination combination isFormal
  { items := combination, score := scoring.score, explanation := scoring.explanation,
    details := scoring.details, style := if isFormal then "formal" else "casual" }

/-- The `while (suggestions.length < maxSuggestions && attempts < 200)`
loop of `generateOutfitSuggestions`, consuming one `Draw` per attempt:
draws building fewer than 2 items are skipped, a draw whose dedup key
already appears among the accepted suggestions is skipped, anything else
is accepted in arrival order. -/
def genLoop (w : Wardrobe) (isFormal : Bool) (maxSuggestions : ℕ) :
    List Draw → List OutfitCandidate → List OutfitCandidate
  | [], suggestions => suggestions
  | d :: ds, suggestions =>
    if maxSuggestions ≤ suggestions.length then suggestions
    else
      let combination := buildCombination w d
      if combination.length < 2 then genLoop w isFormal maxSuggestions ds suggestions
      else
        let combinationIds := dedupKey combination
        if (suggestions.map fun s => dedupKey s.items).contains combinationIds then
          genLoop w isFormal maxSuggestions ds suggestions
        else
          genLoop w isFormal maxSuggestions ds
            (suggestions ++ [mkCandidate isFormal combination])

/-- Insertion step of `suggestions.sort((a, b) => b.score - a.score)`. -/
def insertByScoreDesc (c : OutfitCandidate) :
    List OutfitCandidate → List OutfitCandidate
  | [] => [c]
  | x :: xs => if x.score ≤ c.score then c :: x :: xs else x :: insertByScoreDesc c xs

/-- Sorting by score descending, as the final
`sort((a, b) => b.score - a.score)` produces (any order consistent with
the comparator; tie order is not guaranteed by the source). -/
def sortByScoreDesc (l : List OutfitCandidate) : List OutfitCandidate :=
  l.foldr insertByScoreDesc []

/-- `generateOutfitSuggestions` (colorMatching.js): early exit when both
tops and bottoms are empty, at most 200 attempts, then sort by score
descending and truncate to `maxSuggestions`. -/
def generateOutfitSuggestions (w : Wardrobe) (isFormal : Bool) (maxSuggestions : ℕ)
    (draws : List Draw) : List OutfitCandidate :=
  if w.tops.length = 0 ∧ w.bottoms.length = 0 then []
  else
    (sortByScoreDesc (genLoop w isFormal maxSuggestions (draws.take 200) [])).take
      maxSuggestions

/-- Membership is preserved by the insertion step of the score sort. -/
theorem mem_insertByScoreDesc {y c : OutfitCandidate} :
    ∀ {l}, y ∈ insertByScoreDesc c l ↔ y = c ∨ y ∈ l := by
  intro l
  induction l with
  | nil => simp [insertByScoreDesc]
  | cons x xs ih =>
    by_cases hxc : x.score ≤ c.score <;> simp [insertByScoreDesc, hxc, ih] <;> tauto

/-- The insertion step of the score sort permutes. -/
theorem perm_insertByScoreDesc (c : OutfitCandidate) (l : List OutfitCandidate) :
    List.Perm (insertByScoreDesc c l) (c :: l) := by
  induction l with
  | nil => simp [insertByScoreDesc]
  | cons x xs ih =>
    by_cases hxc : x.score ≤ c.score
    · simp [insertByScoreDesc, hxc]
    · simp only [insertByScoreDesc, hxc, if_false]
      exact (ih.cons x).trans (List.Perm.swap c x xs)

/-- The final score sort permutes the accepted suggestions. -/
theorem perm_sortByScoreDesc (l : List OutfitCandidate) : List.Perm (sortByScoreDesc l) l := by
  induction l with
  | nil => simp [sortByScoreDesc]
  | cons x xs ih =>
    exact (perm_insertByScoreDesc x (sortByScoreDesc xs)).trans (ih.cons x)

/-- The insertion step of the score sort preserves descending order. -/
theorem sorted_insertByScoreDesc (c : OutfitCandidate) :
    ∀ {l}, l.Sorted (fun a b => b.score ≤ a.score) →
      (insertByScoreDesc c l).Sorted (fun a b => b.score ≤ a.score) := by
  intro l
  induction l with
  | nil => simp [insertByScoreDesc]
  | cons x xs ih =>
    intro h
    rw [List.sorted_cons] at h
    by_cases hxc : x.score ≤ c.score
    · simp only [insertByScoreDesc, hxc, if_true]
      rw [List.sorted_cons]
      refine ⟨?_, by rw [List.sorted_cons]; exact h⟩
      intro b hb
      rcases List.mem_cons.mp hb with rfl | hb
      · exact hxc
      · exact le_trans (h.1 b hb) hxc
    · simp only [insertByScoreDesc, hxc, if_false]
      rw [List.sorted_cons]
      refine ⟨?_, ih h.2⟩
      intro b hb
      rcases mem_insertByScoreDesc.mp hb with rfl | hb
      · exact le_of_not_le hxc
      · exact h.1 b hb

/-- The final score sort sorts by score descending. -/
theorem sorted_sortByScoreDesc (l : List OutfitCandidate) :
    (sortByScoreDesc l).Sorted (fun a b => b.score ≤ a.score) := by
  induction l with
  | nil => simp [sortByScoreDesc]
  | cons x xs ih => exact sorted_insertByScoreDesc x ih

/-- C6: the generator returns the empty sequence when both the Tops and
Bottoms buckets are empty; in every case the returned sequence has length
at most `maxSuggestions` and is sorted by score in descending order. -/
theorem C6_generator_shape (w : Wardrobe) (isFormal : Bool) (m : ℕ)
    (draws : List Draw) :
    (w.tops = [] → w.bottoms = [] → generateOutfitSuggestions w isFormal m draws = []) ∧
    (generateOutfitSuggestions w isFormal m draws).length ≤ m ∧
    (generateOutfitSuggestions w isFormal m draws).Sorted
      (fun a b => b.score ≤ a.score) := by
  refine ⟨?_, ?_, ?_⟩
  · intro h1 h2
    simp [generateOutfitSuggestions, h1, h2]
  · unfold generateOutfitSuggestions
    split
    · simp
    · simpa using List.length_take_le m _
  · unfold generateOutfitSuggestions
    split
    · simp
    · exact List.Pairwise.sublist (List.take_sublist _ _) (sorted_sortByScoreDesc _)

/-- An accessory-only wardrobe with empty Tops and Bottoms buckets, used
as the C6 witness instance (without the early return, its draws could
still assemble a footwear-accessory pair). -/
def sFoot : Item := { id := "f", category := "Footwear", hsl := ⟨20, 50, 50⟩ }

/-- Accessory of the C6/C4 witness wardrobes. -/
def sAcc : Item := { id := "a", category := "Accessories", hsl := ⟨30, 50, 50⟩ }

/-- A draw that includes footwear and accessories. -/
def dFootAcc : Draw := { incFoot := true, incAcc := true }

/-- Witness for C6: empty Tops and Bottoms force an empty result. -/
theorem C6_witness :
    generateOutfitSuggestions { footwear := [sFoot], accessories := [sAcc] }
      false 3 [dFootAcc] = [] :=
  (C6_generator_shape { footwear := [sFoot], accessories := [sAcc] }
    false 3 [dFootAcc]).1 rfl rfl

/-- A pick stays inside its bucket. -/
theorem pick_subset (l : List Item) (n : ℕ) : ∀ y ∈ pick l n, y ∈ l := by
  cases l with
  | nil => simp [pick]
  | cons x xs =>
    intro y hy
    simp only [pick, List.mem_singleton] at hy
    subst hy
    have hlt : n % (xs.length + 1) < (x :: xs).length := by
      simpa using Nat.mod_lt n (Nat.succ_pos xs.length)
    rw [List.getD_eq_getElem (x :: xs) x hlt]
    exact List.getElem_mem hlt

/-- A pick contributes at most one item. -/
theorem pick_length_le (l : List Item) (n : ℕ) : (pick l n).length ≤ 1 := by
  cases l <;> simp [pick]

/-- Every suggestion accepted by the generation loop either was already in
the accumulator or is the wrapped combination of one of the remaining
draws, with at least 2 items. -/
theorem mem_genLoop {w : Wardrobe} {isFormal : Bool} {m : ℕ} :
    ∀ {ds : List Draw} {acc : List OutfitCandidate} {c : OutfitCandidate},
      c ∈ genLoop w isFormal m ds acc →
      c ∈ acc ∨ ∃ d, d ∈ ds ∧ c = mkCandidate isFormal (buildCombination w d) ∧
        2 ≤ (buildCombination w d).length := by
  intro ds
  induction ds with
  | nil =>
    intro acc c h
    exact Or.inl h
  | cons d ds ih =>
    intro acc c h
    rw [genLoop] at h
    by_cases hcap : m ≤ acc.length
    · rw [if_pos hcap] at h
      exact Or.inl h
    rw [if_neg hcap] at h
    by_cases hlen : (buildCombination w d).length < 2
    · rw [if_pos hlen] at h
      rcases ih h with h' | ⟨d', hd', rest⟩
      · exact Or.inl h'
      · exact Or.inr ⟨d', List.mem_cons_of_mem _ hd', rest⟩
    rw [if_neg hlen] at h
    by_cases hdup :
        ((acc.map fun s => dedupKey s.items).contains
          (dedupKey (buildCombination w d))) = true
    · rw [if_pos hdup] at h
      rcases ih h with h' | ⟨d', hd', rest⟩
      · exact Or.inl h'
      · exact Or.inr ⟨d', List.mem_cons_of_mem _ hd', rest⟩
    · rw [if_neg hdup] at h
      rcases ih h with h' | ⟨d', hd', rest⟩
      · rcases List.mem_append.mp h' with h2 | h2
        · exact Or.inl h2
        · have hc : c = mkCandidate isFormal (buildCombination w d) := by
            simpa using h2
          exact Or.inr ⟨d, List.mem_cons_self d ds, hc, by omega⟩
      · exact Or.inr ⟨d', List.mem_cons_of_mem _ hd', rest⟩

/-- Everything returned by the generator came out of the generation loop. -/
theorem mem_of_mem_generateOutfitSuggestions {w : Wardrobe} {isFormal : Bool}
    {m : ℕ} {draws : List Draw} {c : OutfitCandidate}
    (h : c ∈ generateOutfitSuggestions w isFormal m draws) :
    ∃ d, d ∈ draws.take 200 ∧ c = mkCandidate isFormal (buildCombination w d) ∧
      2 ≤ (buildCombination w d).length := by
  unfold generateOutfitSuggestions at h
  split at h
  · simp at h
  · have h1 : c ∈ sortByScoreDesc (genLoop w isFormal m (draws.take 200) []) :=
      List.mem_of_mem_take h
    have h2 : c ∈ genLoop w isFormal m (draws.take 200) [] :=
      (perm_sortByScoreDesc _).subset h1
    rcases mem_genLoop h2 with h3 | h3
    · simp at h3
    · exact h3

/-- C7: every returned candidate has between 2 and 4 items, drawn at most
one from each of the four category buckets in bucket order, and carries
the style tag matching the `isFormal` argument. -/
theorem C7_candidate_shape (w : Wardrobe) (isFormal : Bool) (m : ℕ)
    (draws : List Draw) (c : OutfitCandidate)
    (h : c ∈ generateOutfitSuggestions w isFormal m draws) :
    2 ≤ c.items.length ∧ c.items.length ≤ 4 ∧
    c.style = (if isFormal then "formal" else "casual") ∧
    ∃ t b ft ac : List Item,
      c.items = t ++ b ++ ft ++ ac ∧
      (∀ y ∈ t, y ∈ w.tops) ∧ t.length ≤ 1 ∧
      (∀ y ∈ b, y ∈ w.bottoms) ∧ b.length ≤ 1 ∧
      (∀ y ∈ ft, y ∈ w.footwear) ∧ ft.length ≤ 1 ∧
      (∀ y ∈ ac, y ∈ w.accessories) ∧ ac.length ≤ 1 := by
  rcases mem_of_mem_generateOutfitSuggestions h with ⟨d, _, rfl, hlen⟩
  have hitems : (mkCandidate isFormal (buildCombination w d)).items =
      buildCombination w d := rfl
  refine ⟨by rw [hitems]; exact hlen, ?_, rfl, ?_⟩
  · rw [hitems]
    unfold buildCombination
    have h1 := pick_length_le w.tops d.topIdx
    have h2 := pick_length_le w.bottoms d.botIdx
    have h3 := pick_length_le w.footwear d.footIdx
    have h4 := pick_length_le w.accessories d.accIdx
    simp only [List.length_append]
    split_ifs <;> simp <;> omega
  · refine ⟨pick w.tops d.topIdx, pick w.bottoms d.botIdx,
      if d.incFoot then pick w.footwear d.footIdx else [],
      if d.incAcc then pick w.accessories d.accIdx else [], rfl,
      pick_subset _ _, pick_length_le _ _, pick_subset _ _, pick_length_le _ _,
      ?_, ?_, ?_, ?_⟩
    · split
      · exact pick_subset _ _
      · simp
    · split
      · exact pick_length_le _ _
      · simp
    · split
      · exact pick_subset _ _
      · simp
    · split
      · exact pick_length_le _ _
      · simp

/-- Top item of the C7/C4 witness wardrobe. -/
def sTop : Item := { id := "t", category := "Tops", hsl := ⟨0, 50, 50⟩ }

/-- Bottom item of the C7/C4 witness wardrobe. -/
def sBottom : Item := { id := "b", category := "Bottoms", hsl := ⟨10, 50, 50⟩ }

/-- A draw including nothing optional. -/
def dNone : Draw := {}

/-- Witness for C7 on a concrete generated candidate. -/
theorem C7_witness :
    2 ≤ (mkCandidate false [sTop, sBottom]).items.length ∧
    (mkCandidate false [sTop, sBottom]).items.length ≤ 4 ∧
    (mkCandidate false [sTop, sBottom]).style = (if false then "formal" else "casual") ∧
    ∃ t b ft ac : List Item,
      (mkCandidate false [sTop, sBottom]).items = t ++ b ++ ft ++ ac ∧
      (∀ y ∈ t, y ∈ ({ tops := [sTop], bottoms := [sBottom] } : Wardrobe).tops) ∧
      t.length ≤ 1 ∧
      (∀ y ∈ b, y ∈ ({ tops := [sTop], bottoms := [sBottom] } : Wardrobe).bottoms) ∧
      b.length ≤ 1 ∧
      (∀ y ∈ ft, y ∈ ({ tops := [sTop], bottoms := [sBottom] } : Wardrobe).footwear) ∧
      ft.length ≤ 1 ∧
      (∀ y ∈ ac, y ∈ ({ tops := [sTop], bottoms := [sBottom] } : Wardrobe).accessories) ∧
      ac.length ≤ 1 :=
  C7_candidate_shape { tops := [sTop], bottoms := [sBottom] } false 3 [dNone]
    (mkCandidate false [sTop, sBottom]) (by decide)

/-- The generation loop keeps the accepted suggestions' dedup keys
pairwise distinct. -/
theorem genLoop_keys_nodup {w : Wardrobe} {isFormal : Bool} {m : ℕ} :
    ∀ {ds : List Draw} {acc : List OutfitCandidate},
      ((acc.map fun c => dedupKey c.items)).Nodup →
      ((genLoop w isFormal m ds acc).map fun c => dedupKey c.items).Nodup := by
  intro ds
  induction ds with
  | nil =>
    intro acc h
    exact h
  | cons d ds ih =>
    intro acc h
    rw [genLoop]
    by_cases hcap : m ≤ acc.length
    · rw [if_pos hcap]
      exact h
    rw [if_neg hcap]
    by_cases hlen : (buildCombination w d).length < 2
    · rw [if_pos hlen]
      exact ih h
    rw [if_neg hlen]
    by_cases hdup :
        ((acc.map fun s => dedupKey s.items).contains
          (dedupKey (buildCombination w d))) = true
    · rw [if_pos hdup]
      exact ih h
    · rw [if_neg hdup]
      apply ih
      have hnotmem : dedupKey (buildCombination w d) ∉
          acc.map fun c => dedupKey c.items := by
        simpa using hdup
      rw [List.map_append]
      refine List.Nodup.append h (by simp) ?_
      intro a ha hb
      simp only [List.map_cons, List.map_nil, List.mem_singleton] at hb
      subst hb
      exact hnotmem ha

/-- Top with an id containing a hyphen, colliding under the joined key. -/
def collTop1 : Item := { id := "a-b", category := "Tops", hsl := ⟨0, 50, 50⟩ }

/-- Top whose id is a fragment of `collTop1`'s. -/
def collTop2 : Item := { id := "a", category := "Tops", hsl := ⟨0, 50, 50⟩ }

/-- Bottom paired with `collTop1`. -/
def collBottom1 : Item := { id := "c", category := "Bottoms", hsl := ⟨10, 50, 50⟩ }

/-- Bottom paired with `collTop2`; the pair has a different id set but the
same joined dedup key as the `collTop1`/`collBottom1` pair. -/
def collBottom2 : Item := { id := "b-c", category := "Bottoms", hsl := ⟨10, 50, 50⟩ }

/-- Wardrobe whose two possible top-bottom pairs have distinct id sets but
identical joined dedup keys. -/
def wColl : Wardrobe :=
  { tops := [collTop1, collTop2], bottoms := [collBottom1, collBottom2] }

/-- Draw picking the first top and first bottom. -/
def dColl1 : Draw := {}

/-- Draw picking the second top and second bottom. -/
def dColl2 : Draw := { topIdx := 1, botIdx := 1 }

/-- C2 counterexample: the second draw's item-id set differs from the only
accepted candidate's, yet the draw is discarded, because ids containing
hyphens make the joined keys collide: both combinations produce the key
"a-b-c". -/
theorem C2_counterexample :
    (generateOutfitSuggestions wColl false 5 [dColl1, dColl2]).length = 1 ∧
    buildCombination wColl dColl1 = [collTop1, collBottom1] ∧
    buildCombination wColl dColl2 = [collTop2, collBottom2] ∧
    sortStrings ((buildCombination wColl dColl2).map Item.id) ≠
      sortStrings ((buildCombination wColl dColl1).map Item.id) ∧
    dedupKey (buildCombination wColl dColl2) =
      dedupKey (buildCombination wColl dColl1) := by
  refine ⟨by decide, by decide, by decide, by decide, by decide⟩

/-- C2 (amended): deduplication is governed by the joined key
`sorted ids joined with "-"`, not by the id set itself: the returned
candidates have pairwise distinct keys and hence pairwise distinct sorted
id lists, a draw with at least 2 items is skipped exactly when its key
already appears among the accepted candidates, and an accepted candidate
stores the drawn combination itself, so its recomputed key is the key
used to admit it. Distinct id sets may still collide on the joined key
(see the counterexample), in which case the draw is discarded. -/
theorem C2_dedup_by_key (w : Wardrobe) (isFormal : Bool) (m : ℕ)
    (draws : List Draw) :
    (((generateOutfitSuggestions w isFormal m draws).map
        fun c => dedupKey c.items).Nodup) ∧
    (((generateOutfitSuggestions w isFormal m draws).map
        fun c => sortStrings (c.items.map Item.id)).Nodup) ∧
    (∀ (suggestions : List OutfitCandidate) (d : Draw) (ds : List Draw),
      suggestions.length < m → 2 ≤ (buildCombination w d).length →
      ((dedupKey (buildCombination w d) ∈
          suggestions.map fun c => dedupKey c.items) →
        genLoop w isFormal m (d :: ds) suggestions =
          genLoop w isFormal m ds suggestions) ∧
      (dedupKey (buildCombination w d) ∉
          (suggestions.map fun c => dedupKey c.items) →
        genLoop w isFormal m (d :: ds) suggestions =
          genLoop w isFormal m ds
            (suggestions ++ [mkCandidate isFormal (buildCombination w d)]))) ∧
    (∀ combination : List Item,
      (mkCandidate isFormal combination).items = combination) := by
  have hkeys : ((generateOutfitSuggestions w isFormal m draws).map
      fun c => dedupKey c.items).Nodup := by
    unfold generateOutfitSuggestions
    split
    · simp
    · have h1 : ((genLoop w isFormal m (draws.take 200) []).map
          fun c => dedupKey c.items).Nodup :=
        genLoop_keys_nodup (by simp)
      have h2 : ((sortByScoreDesc (genLoop w isFormal m (draws.take 200) [])).map
          fun c => dedupKey c.items).Nodup :=
        (((perm_sortByScoreDesc _).map fun c => dedupKey c.items).nodup_iff).mpr h1
      rw [List.map_take]
      exact List.Nodup.sublist (List.take_sublist _ _) h2
  refine ⟨hkeys, ?_, ?_, fun _ => rfl⟩
  · apply List.Nodup.of_map (String.intercalate "-")
    rw [List.map_map]
    exact hkeys
  · intro suggestions d ds h1 h2
    constructor
    · intro hmem
      rw [genLoop]
      rw [if_neg (by omega), if_neg (by omega)]
      rw [if_pos (by simpa using hmem)]
    · intro hmem
      rw [genLoop]
      rw [if_neg (by omega), if_neg (by omega)]
      rw [if_neg (by simpa using hmem)]

/-- Witness for C2 on a concrete fresh-key acceptance step. -/
theorem C2_witness :
    genLoop wColl false 5 [dColl2] [] =
      genLoop wColl false 5 []
        ([] ++ [mkCandidate false (buildCombination wColl dColl2)]) :=
  ((C2_dedup_by_key wColl false 5 []).2.2.1 [] dColl2 [] (by decide)
    (by decide)).2 (by decide)

/-- A pick from a one-item bucket always yields that item. -/
theorem pick_singleton (x : Item) (n : ℕ) : pick [x] n = [x] := by
  simp [pick, Nat.mod_one]

/-- Wardrobe with exactly one item in each category bucket. -/
def singleWardrobe (t b ft ac : Item) : Wardrobe :=
  { tops := [t], bottoms := [b], footwear := [ft], accessories := [ac] }

/-- With exactly one item per bucket, only four combinations can be
assembled, one per inclusion pattern of footwear and accessories. -/
theorem buildCombination_single (t b ft ac : Item) (d : Draw) :
    buildCombination (singleWardrobe t b ft ac) d ∈
      [[t, b], [t, b, ft], [t, b, ac], [t, b, ft, ac]] := by
  unfold buildCombination singleWardrobe
  simp only [pick_singleton]
  cases hf : d.incFoot <;> cases ha : d.incAcc <;> simp

/-- A draw additionally including footwear. -/
def dFoot : Draw := { incFoot := true }

/-- C4 counterexample: a wardrobe with exactly one item in each of the
four buckets yields two accepted candidates from two draws (with and
without footwear), so the generator can return more than one candidate. -/
theorem C4_counterexample :
    (generateOutfitSuggestions (singleWardrobe sTop sBottom sFoot sAcc)
      false 3 [dNone, dFoot]).length = 2 := by
  decide

/-- C4 (amended): with exactly one item per bucket the generator returns
at most four candidates (one per distinct item set: top-bottom alone, plus
footwear, plus accessories, plus both), for every `maxSuggestions` and
every draw sequence; only the claimed bound of one is wrong. -/
theorem C4_single_item_buckets (t b ft ac : Item) (isFormal : Bool) (m : ℕ)
    (draws : List Draw) :
    (generateOutfitSuggestions (singleWardrobe t b ft ac)
      isFormal m draws).length ≤ 4 := by
  unfold generateOutfitSuggestions
  rw [if_neg (by simp [singleWardrobe])]
  have hperm := perm_sortByScoreDesc
    (genLoop (singleWardrobe t b ft ac) isFormal m (draws.take 200) [])
  have hkeys : ((genLoop (singleWardrobe t b ft ac) isFormal m
      (draws.take 200) []).map fun c => dedupKey c.items).Nodup :=
    genLoop_keys_nodup (by simp)
  have hsub : ((genLoop (singleWardrobe t b ft ac) isFormal m
      (draws.take 200) []).map fun c => dedupKey c.items) ⊆
      [dedupKey [t, b], dedupKey [t, b, ft], dedupKey [t, b, ac],
        dedupKey [t, b, ft, ac]] := by
    intro k hk
    rcases List.mem_map.mp hk with ⟨c, hc, rfl⟩
    rcases mem_genLoop hc with h0 | ⟨d, _, rfl, _⟩
    · simp at h0
    · have hmem := buildCombination_single t b ft ac d
      have hit : (mkCandidate isFormal
          (buildCombination (singleWardrobe t b ft ac) d)).items =
          buildCombination (singleWardrobe t b ft ac) d := rfl
      rw [hit]
      simpa using List.mem_map_of_mem dedupKey hmem
  have hlen4 : (genLoop (singleWardrobe t b ft ac) isFormal m
      (draws.take 200) []).length ≤ 4 := by
    have hle := (List.Nodup.subperm hkeys hsub).length_le
    simpa using hle
  calc ((sortByScoreDesc (genLoop (singleWardrobe t b ft ac) isFormal m
          (draws.take 200) [])).take m).length
      ≤ (sortByScoreDesc (genLoop (singleWardrobe t b ft ac) isFormal m
          (draws.take 200) [])).length := by
        simp [List.length_take]
    _ = _ := hperm.length_eq
    _ ≤ 4 := hlen4

end ColorCloset
